import Mathlib

/-!
# Verification of the go-redisson distributed mutex (src/mutex/mutex.go)

A shallow embedding of the Redis-backed mutex. The Redis store is an
association list from keys to a value plus an optional TTL in
milliseconds, together with the list of published (channel, payload)
messages. The three Lua scripts of mutex.go (lockScript, unlockScript,
extendScript) are embedded as compositions of the Redis commands they
invoke, in the order the Lua invokes them. The Go layer (TryLock, Lock,
Unlock, extendLease, the lease-extender goroutine and the injected
virtual clock) is embedded on top.
-/

/-- One Redis key binding: key, stored value, remaining TTL in
milliseconds (`none` means no expiry is set). -/
abbrev REntry := String × String × Option Nat

/-- The modelled Redis state: key bindings plus the log of published
pub-sub messages as (channel, payload) pairs. -/
structure Store where
  entries : List REntry
  published : List (String × String)
deriving Repr, DecidableEq

def Store.empty : Store := ⟨[], []⟩

/-- First binding for a key, as Redis lookup does. -/
def lookupEntries : List REntry → String → Option (String × Option Nat)
  | [], _ => none
  | e :: rest, k => if e.1 = k then some e.2 else lookupEntries rest k

/-- Remove every binding of a key (Redis SET first discards the old
binding; Redis DEL removes it). -/
def removeKey : List REntry → String → List REntry
  | [], _ => []
  | e :: rest, k => if e.1 = k then removeKey rest k else e :: removeKey rest k

/-- Set the TTL of every binding of a key (Redis PEXPIRE). -/
def setTtlEntries : List REntry → String → Nat → List REntry
  | [], _, _ => []
  | e :: rest, k, ms =>
    if e.1 = k then (e.1, e.2.1, some ms) :: setTtlEntries rest k ms
    else e :: setTtlEntries rest k ms

/-- Advance time by `ms` milliseconds: TTLs count down and a binding
whose TTL reaches zero is evicted; bindings without TTL persist. -/
def elapseEntries : List REntry → Nat → List REntry
  | [], _ => []
  | (k, v, none) :: rest, ms => (k, v, none) :: elapseEntries rest ms
  | (k, v, some t) :: rest, ms =>
    if ms < t then (k, v, some (t - ms)) :: elapseEntries rest ms
    else elapseEntries rest ms

def Store.lookupEntry (s : Store) (k : String) : Option (String × Option Nat) :=
  lookupEntries s.entries k

/-- Redis EXISTS (returns the number of existing keys asked about: here 0 or 1). -/
def Store.existsCmd (s : Store) (k : String) : Nat :=
  if (s.lookupEntry k).isSome then 1 else 0

/-- Redis GET. -/
def Store.getCmd (s : Store) (k : String) : Option String :=
  (s.lookupEntry k).map (fun p => p.1)

/-- Redis SET key value (a plain SET discards any existing TTL). -/
def Store.setCmd (s : Store) (k v : String) : Store :=
  { s with entries := (k, v, none) :: removeKey s.entries k }

/-- Redis PEXPIRE key ms (no effect when the key is absent). -/
def Store.pexpireCmd (s : Store) (k : String) (ms : Nat) : Store :=
  { s with entries := setTtlEntries s.entries k ms }

/-- Redis PTTL: -2 when the key is absent, -1 when it has no expiry,
otherwise the remaining TTL in milliseconds. -/
def Store.pttlCmd (s : Store) (k : String) : Int :=
  match s.lookupEntry k with
  | none => -2
  | some (_, none) => -1
  | some (_, some ms) => (ms : Int)

/-- Redis DEL. -/
def Store.delCmd (s : Store) (k : String) : Store :=
  { s with entries := removeKey s.entries k }

/-- Redis PUBLISH. -/
def Store.publishCmd (s : Store) (ch msg : String) : Store :=
  { s with published := s.published ++ [(ch, msg)] }

/-- Virtual time advances by `ms` milliseconds. -/
def Store.elapse (s : Store) (ms : Nat) : Store :=
  { s with entries := elapseEntries s.entries ms }

/-- The acquire script (`lockScript` in mutex.go), with
KEYS[1] = `keyLock`, ARGV[1] = `ttlMs`, ARGV[2] = `token`:
if EXISTS KEYS[1] is 0 then SET KEYS[1] ARGV[2]; PEXPIRE KEYS[1] ARGV[1];
return 0; otherwise return PTTL KEYS[1]. -/
def lockScriptRun (s : Store) (keyLock : String) (ttlMs : Nat) (token : String) :
    Int × Store :=
  if s.existsCmd keyLock = 0 then
    let s1 := s.setCmd keyLock token
    let s2 := s1.pexpireCmd keyLock ttlMs
    (0, s2)
  else
    (s.pttlCmd keyLock, s)

/-- The release script (`unlockScript` in mutex.go), with
KEYS[1] = `keyLock`, KEYS[2] = `keyChannel`, ARGV[1] = `payload`:
if EXISTS KEYS[1] is 0 then return 0; otherwise DEL KEYS[1];
PUBLISH KEYS[2] ARGV[1]; return 1. The stored value is never read. -/
def unlockScriptRun (s : Store) (keyLock keyChannel payload : String) :
    Int × Store :=
  if s.existsCmd keyLock = 0 then
    (0, s)
  else
    let s1 := s.delCmd keyLock
    let s2 := s1.publishCmd keyChannel payload
    (1, s2)

/-- The lease-extension script (`extendScript` in mutex.go), with
KEYS[1] = `keyLock`, ARGV[1] = `ttlMs`, ARGV[2] = `token`:
if GET KEYS[1] equals ARGV[2] then PEXPIRE KEYS[1] ARGV[1]; return 1;
otherwise return 0 (a GET of an absent key yields nil, never equal to
the token string). -/
def extendScriptRun (s : Store) (keyLock : String) (ttlMs : Nat) (token : String) :
    Int × Store :=
  if s.getCmd keyLock = some token then
    let s1 := s.pexpireCmd keyLock ttlMs
    (1, s1)
  else
    (0, s)

/-! ## The Go layer of mutex.go -/

/-- Payload published on release (`unlockMsg` in mutex.go). -/
def unlockMsg : String := "unlocked"

/-- Lock-record key (`getLockName`): Sprintf "go_redisson_lock:%s". -/
def getLockName (key : String) : String := "go_redisson_lock:" ++ key

/-- Release-channel key (`getChannelName`):
Sprintf "go_redisson_lock_channel:%s". -/
def getChannelName (key : String) : String := "go_redisson_lock_channel:" ++ key

/-- Model of a go-logr Logger value: its zero value, the stdr logger
built by defaultOptions, or a caller-supplied one. -/
inductive LoggerV where
  | zeroLogger
  | stdrDefault
  | customLogger (id : Nat)
deriving Repr, DecidableEq

/-- Model of a benbjohnson clock value: nil (the zero value of the
interface), the real clock from clock.New(), or a mock clock. -/
inductive ClockV where
  | nilClock
  | realClock
  | mockClock
deriving Repr, DecidableEq

/-- Go time.Duration is a count of nanoseconds. -/
abbrev GoDuration := Nat

/-- Duration.Milliseconds(): nanoseconds divided by one million. -/
def GoDuration.milliseconds (d : GoDuration) : Nat := d / 1000000

/-- defaultLeaseDuration = 30 * time.Second, in nanoseconds. -/
def defaultLeaseDuration : GoDuration := 30 * 1000000000

/-- The Options struct of mutex.go. -/
structure Options where
  clock : ClockV
  leaseDuration : GoDuration
  logger : LoggerV
deriving Repr, DecidableEq

/-- The Go zero value of Options: nil interface clock, zero duration,
zero-value logger. -/
def Options.zero : Options :=
  { clock := .nilClock, leaseDuration := 0, logger := .zeroLogger }

/-- WithClock option. -/
def withClock (c : ClockV) : Options → Options :=
  fun mo => { mo with clock := c }

/-- WithLeaseDuration option. -/
def withLeaseDuration (d : GoDuration) : Options → Options :=
  fun mo => { mo with leaseDuration := d }

/-- WithLogger option. -/
def withLogger (l : LoggerV) : Options → Options :=
  fun mo => { mo with logger := l }

/-- defaultOptions() in mutex.go: starts from the zero Options, applies
WithClock(clock.New()) and WithLeaseDuration(defaultLeaseDuration) to it.
The line `WithLogger(stdr.New(log.Default()))` evaluates the WithLogger
call, obtaining an Option closure, but never applies it to `opts`; the
constructed closure is discarded, exactly as in the source. -/
def defaultOptions : Options :=
  let opts := Options.zero
  let opts := withClock ClockV.realClock opts
  let opts := withLeaseDuration defaultLeaseDuration opts
  let _discarded := withLogger LoggerV.stdrDefault
  opts

/-- The Mutex struct of mutex.go (the redis client lives outside the
model: store effects are threaded explicitly). -/
structure MutexM where
  key : String
  leaseDuration : GoDuration
  clock : ClockV
  logger : LoggerV
deriving Repr, DecidableEq

/-- NewMutex(client, key, options...): fold the options over
defaultOptions and build the Mutex. -/
def newMutex (key : String) (options : List (Options → Options)) : MutexM :=
  let opts := options.foldl (fun o f => f o) defaultOptions
  { key := key, leaseDuration := opts.leaseDuration,
    clock := opts.clock, logger := opts.logger }

/-- doTryLock: evaluates lockScript with KEYS = [m.getLockName()],
ARGV = [m.leaseDuration.Milliseconds(), freshly generated uuid]. Returns
the script result, the new store, and whether the lease-extender
goroutine was launched (it is launched exactly when the result is 0). -/
def doTryLock (m : MutexM) (token : String) (s : Store) :
    Int × Store × Bool :=
  let r := lockScriptRun s (getLockName m.key) (GoDuration.milliseconds m.leaseDuration) token
  (r.1, r.2, r.1 == 0)

/-- TryLock: acquired exactly when doTryLock returned 0. -/
def tryLock (m : MutexM) (token : String) (s : Store) :
    Bool × Store × Bool :=
  let r := doTryLock m token s
  (r.1 == 0, r.2.1, r.2.2)

/-- Model of a Go error value as built by this package. fmt.Errorf with
a %w verb wraps the inner error; `wrapNil` stands for fmt.Errorf applied
with %w to a nil error, which produces a non-nil error that wraps
nothing. `ctxCanceled` stands for context.Canceled. -/
inductive GoError where
  | ctxCanceled
  | wrapNil (msg : String)
  | wrapped (msg : String) (inner : GoError)
deriving Repr, DecidableEq

/-- fmt.Errorf("msg: %w", err) for a possibly nil err. -/
def goErrorf (msg : String) : Option GoError → GoError
  | some e => GoError.wrapped msg e
  | none => GoError.wrapNil msg

/-- errors.Is: does the error chain of `e` contain `target`? -/
def GoError.is (e target : GoError) : Bool :=
  match e with
  | .wrapped msg inner => (GoError.wrapped msg inner == target) || GoError.is inner target
  | e0 => e0 == target

/-- Unlock: evaluates unlockScript with KEYS = [m.getLockName(),
m.getChannelName()], ARGV = [unlockMsg]; in the error-free transport
model Eval succeeds, so Unlock returns nil whatever the script result. -/
def unlock (m : MutexM) (s : Store) : Option GoError × Store :=
  let r := unlockScriptRun s (getLockName m.key) (getChannelName m.key) unlockMsg
  (none, r.2)

/-- Store left by n successive Unlock calls. -/
def unlockIter (m : MutexM) : Nat → Store → Store
  | 0, s => s
  | n + 1, s => unlockIter m n (unlock m s).2

/-- extendLease: evaluates extendScript with KEYS = [m.key] — the raw
key, not m.getLockName() — and ARGV = [m.leaseDuration.Milliseconds(),
acquireId]. Succeeds exactly when the script returned 1. -/
def extendLease (m : MutexM) (acquireId : String) (s : Store) :
    Bool × Store :=
  let r := extendScriptRun s m.key (GoDuration.milliseconds m.leaseDuration) acquireId
  (r.1 == 1, r.2)

/-- One tick of the lease-extender goroutine under the injected clock:
the ticker period is m.leaseDuration / 3, so virtual time advances by
that many milliseconds (TTLs count down in the same clock), then, if the
goroutine is still running, it calls extendLease and keeps running only
when the extension succeeded. -/
def extenderTick (m : MutexM) (token : String) : Store × Bool → Store × Bool :=
  fun sa =>
    let s := sa.1.elapse (GoDuration.milliseconds (m.leaseDuration / 3))
    if sa.2 then
      let r := extendLease m token s
      (r.2, r.1)
    else (s, false)

/-- n extender ticks. -/
def runTicks (m : MutexM) (token : String) (n : Nat) (sa : Store × Bool) :
    Store × Bool :=
  (extenderTick m token)^[n] sa

/-- Events the select in the wait loop of Lock can wake on. -/
inductive WaitEvent where
  | timerFired
  | message (payload : String)
  | ctxDone
deriving Repr, DecidableEq

/-- What one pass through the labelled select does. -/
inductive WaitOutcome where
  | retry
  | giveUp (e : GoError)
deriving Repr, DecidableEq

/-- The labelled select of the wait loop. `errVar` is the err variable
in scope (the nil error returned by the preceding doTryLock). The timer
case executes `break wait`, exiting the select, and the loop retries. In
the message case, `break wait` exits the select when the payload is
unlockMsg; with any other payload control falls off the end of the case,
which in Go also terminates the select, so the loop retries as well. On
ctx.Done the loop returns fmt.Errorf("cancelled while waiting for lock:
%w", err) — wrapping errVar, not ctx.Err(). -/
def lockWaitStep (errVar : Option GoError) : WaitEvent → WaitOutcome
  | .timerFired => .retry
  | .message payload =>
      if payload == unlockMsg then .retry else .retry
  | .ctxDone => .giveUp (goErrorf "cancelled while waiting for lock" errVar)

/-- Result of Lock in the trace model. `stillWaiting` means the supplied
event trace ran out while Lock was still blocked in the select. -/
inductive LockOutcome where
  | acquired
  | cancelled (e : GoError)
  | stillWaiting
deriving Repr, DecidableEq

/-- The wait loop of Lock. `tokens i` is the fresh uuid of the i-th
doTryLock call; the trace `events` supplies, in order, the event each
select pass wakes on; `attempts` counts acquire-script invocations.
Each iteration calls doTryLock (in the error-free transport model its
err result is nil), returns on result 0, and otherwise blocks in the
select, modelled by consuming the next event. -/
def lockLoop (m : MutexM) (tokens : Nat → String) (events : List WaitEvent)
    (s : Store) (i : Nat) (attempts : Nat) : LockOutcome × Store × Nat :=
  let r := doTryLock m (tokens i) s
  let errVar : Option GoError := none
  if r.1 == 0 then (.acquired, r.2.1, attempts + 1)
  else
    match events with
    | [] => (.stillWaiting, r.2.1, attempts + 1)
    | e :: rest =>
      match lockWaitStep errVar e with
      | .retry => lockLoop m tokens rest r.2.1 (i + 1) (attempts + 1)
      | .giveUp err => (.cancelled err, r.2.1, attempts + 1)

/-- Lock: first TryLock; on success return nil; otherwise subscribe to
m.getChannelName() and enter the wait loop. -/
def lock (m : MutexM) (tokens : Nat → String) (events : List WaitEvent)
    (s : Store) : LockOutcome × Store × Nat :=
  let r := tryLock m (tokens 0) s
  if r.1 then (.acquired, r.2.1, 1)
  else lockLoop m (fun i => tokens (i + 1)) events r.2.1 1 1

/-- The channel Lock subscribes to before entering the wait loop. -/
def lockSubscribeChannel (m : MutexM) : String := getChannelName m.key

/-- A store holds the lock for record key k: the key is bound, to some
owner token, with a positive TTL. -/
def Store.heldAt (s : Store) (k : String) : Bool :=
  match s.lookupEntry k with
  | some (_, some ms) => 0 < ms
  | _ => false

/-! ## Basic lemmas about the store commands -/

lemma lookupEntries_removeKey_self (l : List REntry) (k : String) :
    lookupEntries (removeKey l k) k = none := by
  induction l with
  | nil => simp [removeKey, lookupEntries]
  | cons e rest ih =>
    by_cases he : e.1 = k
    · simpa [removeKey, he] using ih
    · simp [removeKey, he, lookupEntries, ih]

lemma lookupEntries_removeKey_other (l : List REntry) (k k' : String)
    (h : k' ≠ k) :
    lookupEntries (removeKey l k) k' = lookupEntries l k' := by
  induction l with
  | nil => simp [removeKey]
  | cons e rest ih =>
    by_cases he : e.1 = k
    · simp [removeKey, he, lookupEntries, Ne.symm h, ih]
    · simp [removeKey, he, lookupEntries, ih]

lemma lookupEntries_setTtl_other (l : List REntry) (k k' : String) (ms : Nat)
    (h : k' ≠ k) :
    lookupEntries (setTtlEntries l k ms) k' = lookupEntries l k' := by
  induction l with
  | nil => simp [setTtlEntries]
  | cons e rest ih =>
    by_cases he : e.1 = k
    · simp [setTtlEntries, he, lookupEntries, Ne.symm h, ih]
    · simp [setTtlEntries, he, lookupEntries, ih]

lemma lookupEntries_setTtl_self (l : List REntry) (k : String) (ms : Nat) :
    lookupEntries (setTtlEntries l k ms) k =
      (lookupEntries l k).map (fun p => (p.1, some ms)) := by
  induction l with
  | nil => simp [setTtlEntries, lookupEntries]
  | cons e rest ih =>
    by_cases he : e.1 = k
    · simp [setTtlEntries, he, lookupEntries, ih]
    · simp [setTtlEntries, he, lookupEntries, ih]

lemma lookup_setCmd_self (s : Store) (k v : String) :
    (s.setCmd k v).lookupEntry k = some (v, none) := by
  simp [Store.setCmd, Store.lookupEntry, lookupEntries]

lemma lookup_setCmd_other (s : Store) (k v k' : String) (h : k' ≠ k) :
    (s.setCmd k v).lookupEntry k' = s.lookupEntry k' := by
  simp [Store.setCmd, Store.lookupEntry, lookupEntries, Ne.symm h,
    lookupEntries_removeKey_other s.entries k k' h]

lemma lookup_pexpireCmd_self (s : Store) (k : String) (ms : Nat) :
    (s.pexpireCmd k ms).lookupEntry k =
      (s.lookupEntry k).map (fun p => (p.1, some ms)) := by
  simp [Store.pexpireCmd, Store.lookupEntry, lookupEntries_setTtl_self]

lemma lookup_pexpireCmd_other (s : Store) (k k' : String) (ms : Nat) (h : k' ≠ k) :
    (s.pexpireCmd k ms).lookupEntry k' = s.lookupEntry k' := by
  simp [Store.pexpireCmd, Store.lookupEntry,
    lookupEntries_setTtl_other s.entries k k' ms h]

lemma lookup_delCmd_self (s : Store) (k : String) :
    (s.delCmd k).lookupEntry k = none := by
  simp [Store.delCmd, Store.lookupEntry, lookupEntries_removeKey_self]

lemma lookup_delCmd_other (s : Store) (k k' : String) (h : k' ≠ k) :
    (s.delCmd k).lookupEntry k' = s.lookupEntry k' := by
  simp [Store.delCmd, Store.lookupEntry,
    lookupEntries_removeKey_other s.entries k k' h]

lemma lookup_publishCmd (s : Store) (ch msg k : String) :
    (s.publishCmd ch msg).lookupEntry k = s.lookupEntry k := by
  simp [Store.publishCmd, Store.lookupEntry]

lemma published_setCmd (s : Store) (k v : String) :
    (s.setCmd k v).published = s.published := rfl

lemma published_pexpireCmd (s : Store) (k : String) (ms : Nat) :
    (s.pexpireCmd k ms).published = s.published := rfl

lemma published_delCmd (s : Store) (k : String) :
    (s.delCmd k).published = s.published := rfl

/-- After SET then PEXPIRE, the lock key is bound to the token with the
supplied TTL. -/
lemma lookup_set_pexpire_self (s : Store) (k v : String) (ms : Nat) :
    (((s.setCmd k v).pexpireCmd k ms)).lookupEntry k = some (v, some ms) := by
  simp [lookup_pexpireCmd_self, lookup_setCmd_self]

lemma existsCmd_eq_zero_iff (s : Store) (k : String) :
    s.existsCmd k = 0 ↔ s.lookupEntry k = none := by
  simp [Store.existsCmd]

lemma existsCmd_ne_zero_iff (s : Store) (k : String) :
    s.existsCmd k ≠ 0 ↔ (s.lookupEntry k).isSome := by
  simp [Store.existsCmd, Option.isSome_iff_ne_none]

/-! ## Claim theorems -/

/-- C3: Acquire-script semantics. For every store state, if the lock key
does not exist the script sets it to the supplied token, applies PEXPIRE
with the supplied TTL in milliseconds, and returns 0; if the key exists
it leaves the store unchanged and returns the current PTTL of the key;
and at the Go layer TryLock reports acquired exactly when the script
returned 0, any non-zero return meaning busy. -/
theorem lockScript_semantics (s : Store) (keyLock token : String) (ttlMs : Nat)
    (m : MutexM) (tok : String) :
    (lockScriptRun s keyLock ttlMs token =
      if s.existsCmd keyLock = 0
        then (0, (s.setCmd keyLock token).pexpireCmd keyLock ttlMs)
        else (s.pttlCmd keyLock, s)) ∧
    (s.existsCmd keyLock = 0 →
      (lockScriptRun s keyLock ttlMs token).1 = 0 ∧
      (lockScriptRun s keyLock ttlMs token).2.getCmd keyLock = some token ∧
      (lockScriptRun s keyLock ttlMs token).2.pttlCmd keyLock = (ttlMs : Int) ∧
      (lockScriptRun s keyLock ttlMs token).2.published = s.published) ∧
    (s.existsCmd keyLock ≠ 0 →
      lockScriptRun s keyLock ttlMs token = (s.pttlCmd keyLock, s)) ∧
    (tryLock m tok s).1 = ((doTryLock m tok s).1 == 0) := by
  refine ⟨rfl, ?_, ?_, rfl⟩
  · intro h
    refine ⟨?_, ?_, ?_, ?_⟩ <;>
      simp [lockScriptRun, h, Store.getCmd, Store.pttlCmd,
        lookup_set_pexpire_self, published_pexpireCmd, published_setCmd]
  · intro h
    simp [lockScriptRun, h]

/-- C4: Release-script semantics. For every store state, if the lock key
does not exist the script returns 0 and changes nothing; otherwise it
deletes the key, publishes the payload on the channel key, and returns 1.
The return value depends only on whether the key existed, never on the
stored owner token: release is unconditional. -/
theorem unlockScript_semantics (s : Store) (keyLock keyChannel payload : String) :
    (s.existsCmd keyLock = 0 →
      unlockScriptRun s keyLock keyChannel payload = (0, s)) ∧
    (s.existsCmd keyLock ≠ 0 →
      (unlockScriptRun s keyLock keyChannel payload).1 = 1 ∧
      (unlockScriptRun s keyLock keyChannel payload).2 =
        (s.delCmd keyLock).publishCmd keyChannel payload ∧
      (unlockScriptRun s keyLock keyChannel payload).2.existsCmd keyLock = 0 ∧
      (unlockScriptRun s keyLock keyChannel payload).2.published =
        s.published ++ [(keyChannel, payload)]) ∧
    (unlockScriptRun s keyLock keyChannel payload).1 =
      (if s.existsCmd keyLock = 0 then 0 else 1) := by
  refine ⟨?_, ?_, ?_⟩
  · intro h; simp [unlockScriptRun, h]
  · intro h
    have hl : ¬ lookupEntries s.entries keyLock = none := fun hn =>
      h ((existsCmd_eq_zero_iff s keyLock).mpr hn)
    refine ⟨?_, ?_, ?_, ?_⟩ <;>
      simp [unlockScriptRun, Store.existsCmd, hl, Store.publishCmd,
        Store.delCmd, Store.lookupEntry, lookupEntries_removeKey_self]
  · by_cases h : s.existsCmd keyLock = 0 <;> simp [unlockScriptRun, h]

/-- C5: Only the holder of the current owner token can extend the lease:
for every store state and token argument, the extend script applies
PEXPIRE with the supplied TTL and returns 1 exactly when the value
stored at the lock key equals the supplied token; otherwise it leaves
the store unchanged and returns 0. -/
theorem extendScript_semantics (s : Store) (keyLock token : String) (ttlMs : Nat) :
    (s.getCmd keyLock = some token →
      (extendScriptRun s keyLock ttlMs token).1 = 1 ∧
      (extendScriptRun s keyLock ttlMs token).2 = s.pexpireCmd keyLock ttlMs ∧
      (extendScriptRun s keyLock ttlMs token).2.getCmd keyLock = some token ∧
      (extendScriptRun s keyLock ttlMs token).2.pttlCmd keyLock = (ttlMs : Int)) ∧
    (s.getCmd keyLock ≠ some token →
      extendScriptRun s keyLock ttlMs token = (0, s)) := by
  constructor
  · intro h
    obtain ⟨o, ho⟩ : ∃ o, s.lookupEntry keyLock = some (token, o) := by
      unfold Store.getCmd at h
      cases hl : s.lookupEntry keyLock with
      | none => rw [hl] at h; simp at h
      | some p =>
        obtain ⟨v, o⟩ := p
        rw [hl] at h
        simp at h
        exact ⟨o, by rw [h]⟩
    refine ⟨?_, ?_, ?_, ?_⟩ <;>
      simp [extendScriptRun, h, Store.getCmd, Store.pttlCmd,
        lookup_pexpireCmd_self, ho]
  · intro h
    simp [extendScriptRun, h]

/-- A held lock makes the acquire attempt take the busy branch:
the script returns the positive remaining TTL and leaves the store
unchanged. -/
lemma doTryLock_busy (m : MutexM) (token : String) (s : Store)
    (h : s.heldAt (getLockName m.key) = true) :
    (doTryLock m token s).1 ≠ 0 ∧ (doTryLock m token s).2.1 = s := by
  unfold Store.heldAt at h
  cases hl : s.lookupEntry (getLockName m.key) with
  | none => rw [hl] at h; simp at h
  | some p =>
    obtain ⟨v, o⟩ := p
    cases o with
    | none => rw [hl] at h; simp at h
    | some ms =>
      rw [hl] at h
      simp at h
      have hl2 : lookupEntries s.entries (getLockName m.key) = some (v, some ms) := hl
      have hne : ¬ lookupEntries s.entries (getLockName m.key) = none := by
        rw [hl2]; exact fun hn => Option.noConfusion hn
      constructor
      · simp [doTryLock, lockScriptRun, Store.existsCmd, Store.lookupEntry,
          hne, Store.pttlCmd, hl2]
        omega
      · simp [doTryLock, lockScriptRun, Store.existsCmd, Store.lookupEntry, hne]

/-- C2: Mutual exclusion. From any store where the lock record for K is
absent, with a positive lease in milliseconds, the first TryLock returns
true and a second, overlapping TryLock on the resulting store returns
false: at most one of the two returns true. -/
theorem tryLock_mutual_exclusion (m : MutexM) (s : Store) (t1 t2 : String)
    (hfree : s.existsCmd (getLockName m.key) = 0)
    (hpos : 0 < GoDuration.milliseconds m.leaseDuration) :
    (tryLock m t1 s).1 = true ∧
    (tryLock m t2 (tryLock m t1 s).2.1).1 = false := by
  have h1 : lockScriptRun s (getLockName m.key)
      (GoDuration.milliseconds m.leaseDuration) t1 =
      (0, (s.setCmd (getLockName m.key) t1).pexpireCmd (getLockName m.key)
        (GoDuration.milliseconds m.leaseDuration)) := by
    simp [lockScriptRun, hfree]
  have h2 : ((s.setCmd (getLockName m.key) t1).pexpireCmd (getLockName m.key)
      (GoDuration.milliseconds m.leaseDuration)).heldAt (getLockName m.key) = true := by
    simp [Store.heldAt, lookup_set_pexpire_self, hpos]
  constructor
  · simp [tryLock, doTryLock, h1]
  · have hheld : ((doTryLock m t1 s).2.1).heldAt (getLockName m.key) = true := by
      simpa [doTryLock, h1] using h2
    have hb := doTryLock_busy m t2 ((doTryLock m t1 s).2.1) hheld
    simp [tryLock, hb.1]

/-- C8: Idempotent unlock. Unlock on a store whose lock record is absent
returns nil and leaves the store untouched, so any number of Unlock
calls on a free key is indistinguishable from one; and Unlock returns
nil on every store (record present or not), since it succeeds whenever
the release script completes. -/
theorem unlock_idempotent_free (m : MutexM) (s s2 : Store) (n : Nat)
    (hfree : s.existsCmd (getLockName m.key) = 0) :
    (unlock m s).1 = none ∧ (unlock m s).2 = s ∧
    unlockIter m n s = s ∧ (unlock m s2).1 = none := by
  have hs : (unlock m s).2 = s := by
    simp [unlock, unlockScriptRun, hfree]
  refine ⟨rfl, hs, ?_, rfl⟩
  induction n with
  | zero => rfl
  | succ k ih => simp [unlockIter, hs, ih]

/-- doTryLock touches no key other than the lock-record key. -/
lemma doTryLock_getCmd_other (m : MutexM) (token : String) (s : Store)
    (k2 : String) (hk : k2 ≠ getLockName m.key) :
    ((doTryLock m token s).2.1).getCmd k2 = s.getCmd k2 := by
  by_cases h : s.existsCmd (getLockName m.key) = 0
  · simp [doTryLock, lockScriptRun, h, Store.getCmd,
      lookup_pexpireCmd_other _ _ _ _ hk, lookup_setCmd_other _ _ _ _ hk]
  · simp [doTryLock, lockScriptRun, h]

/-- doTryLock publishes nothing. -/
lemma doTryLock_published (m : MutexM) (token : String) (s : Store) :
    ((doTryLock m token s).2.1).published = s.published := by
  by_cases h : s.existsCmd (getLockName m.key) = 0
  · simp [doTryLock, lockScriptRun, h, published_pexpireCmd, published_setCmd]
  · simp [doTryLock, lockScriptRun, h]

/-- The wait loop of Lock touches no key other than the lock-record key. -/
lemma lockLoop_getCmd_other (m : MutexM) (tokens : Nat → String)
    (events : List WaitEvent) (k2 : String) (hk : k2 ≠ getLockName m.key) :
    ∀ (s : Store) (i a : Nat),
      ((lockLoop m tokens events s i a).2.1).getCmd k2 = s.getCmd k2 := by
  induction events with
  | nil =>
    intro s i a
    unfold lockLoop
    by_cases h : (doTryLock m (tokens i) s).1 == 0 <;>
      simp [h, doTryLock_getCmd_other m (tokens i) s k2 hk]
  | cons e rest ih =>
    intro s i a
    unfold lockLoop
    by_cases h : (doTryLock m (tokens i) s).1 == 0
    · simp [h, doTryLock_getCmd_other m (tokens i) s k2 hk]
    · cases e with
      | timerFired =>
        simp [h, lockWaitStep, ih, doTryLock_getCmd_other m (tokens i) s k2 hk]
      | message p =>
        by_cases hp : p == unlockMsg <;>
          simp [h, hp, lockWaitStep, ih,
            doTryLock_getCmd_other m (tokens i) s k2 hk]
      | ctxDone =>
        simp [h, lockWaitStep, goErrorf,
          doTryLock_getCmd_other m (tokens i) s k2 hk]

/-- C9: Deterministic key naming. The derived names match the spec
formats; Lock subscribes on the channel name; TryLock, Lock and Unlock
leave every key other than go_redisson_lock:{K} untouched; acquisition
writes the token at exactly go_redisson_lock:{K}; and release publishes
exactly on go_redisson_lock_channel:{K}. -/
theorem mutex_key_naming (m : MutexM) (token k2 : String) (s : Store)
    (tokens : Nat → String) (events : List WaitEvent)
    (hk : k2 ≠ getLockName m.key) :
    getLockName m.key = "go_redisson_lock:" ++ m.key ∧
    getChannelName m.key = "go_redisson_lock_channel:" ++ m.key ∧
    lockSubscribeChannel m = "go_redisson_lock_channel:" ++ m.key ∧
    ((doTryLock m token s).2.1).getCmd k2 = s.getCmd k2 ∧
    ((doTryLock m token s).2.1).published = s.published ∧
    ((unlock m s).2).getCmd k2 = s.getCmd k2 ∧
    ((lock m tokens events s).2.1).getCmd k2 = s.getCmd k2 ∧
    (s.existsCmd (getLockName m.key) = 0 →
      ((doTryLock m token s).2.1).getCmd (getLockName m.key) = some token) ∧
    (s.existsCmd (getLockName m.key) ≠ 0 →
      ((unlock m s).2).published =
        s.published ++ [(getChannelName m.key, unlockMsg)]) := by
  refine ⟨rfl, rfl, rfl, doTryLock_getCmd_other m token s k2 hk,
    doTryLock_published m token s, ?_, ?_, ?_, ?_⟩
  · by_cases h : s.existsCmd (getLockName m.key) = 0
    · simp [unlock, unlockScriptRun, h]
    · simp [unlock, unlockScriptRun, h, Store.getCmd, lookup_publishCmd,
        lookup_delCmd_other _ _ _ hk]
  · have hd := doTryLock_getCmd_other m (tokens 0) s k2 hk
    have hloop := lockLoop_getCmd_other m (fun i => tokens (i + 1)) events k2 hk
    by_cases hb : (doTryLock m (tokens 0) s).1 = 0
    · simp [lock, tryLock, hb, hd]
    · simp [lock, tryLock, hb, hd, hloop]
  · intro h
    simp [doTryLock, lockScriptRun, h, Store.getCmd, lookup_set_pexpire_self]
  · intro h
    simp [unlock, unlockScriptRun, h, Store.publishCmd, published_delCmd]

/-- C7 (amended): in a busy wait-loop state, the coordinator re-attempts
acquisition when the clock signals that ttl milliseconds have elapsed or
when the release channel delivers a message with ANY payload — the
payload test is ineffective, since both branches of the if terminate the
labelled select; only a ctx-done event stops the loop, returning the
cancellation error that wraps the nil err variable. -/
theorem lockLoop_wakeup (m : MutexM) (tokens : Nat → String) (p : String)
    (e : WaitEvent) (rest : List WaitEvent) (s : Store) (i a : Nat)
    (he : e = WaitEvent.timerFired ∨ e = WaitEvent.message p)
    (hheld : s.heldAt (getLockName m.key) = true) :
    lockLoop m tokens (e :: rest) s i a =
      lockLoop m tokens rest s (i + 1) (a + 1) ∧
    lockLoop m tokens [WaitEvent.ctxDone] s i a =
      (LockOutcome.cancelled (GoError.wrapNil "cancelled while waiting for lock"),
        s, a + 1) := by
  have hb := doTryLock_busy m (tokens i) s hheld
  constructor
  · rcases he with he | he <;> subst he <;>
    · conv_lhs => unfold lockLoop
      simp [hb.1, hb.2, lockWaitStep]
  · unfold lockLoop
    simp [hb.1, hb.2, lockWaitStep, goErrorf]

/-- C1: Run of the claimed scenario on the code as written. With the
injected virtual clock, key K and the default 30 s lease, TryLock
acquires the record; the very first extend call of the lease extender
fails, because extendLease addresses the raw key K instead of
go_redisson_lock:K; after one 10 s tick the TTL stands at 20000 ms
(unrefreshed), the extender has stopped, and after six ticks (60 s) the
record has expired, so a contender TryLock returns true — the spec and
the repo test expect false. -/
theorem tryLock_after_virtual_minute :
    (tryLock (newMutex "K" [withClock ClockV.mockClock]) "tok1" Store.empty).1
      = true ∧
    (extendLease (newMutex "K" [withClock ClockV.mockClock]) "tok1"
      (tryLock (newMutex "K" [withClock ClockV.mockClock]) "tok1"
        Store.empty).2.1).1 = false ∧
    (runTicks (newMutex "K" [withClock ClockV.mockClock]) "tok1" 1
      ((tryLock (newMutex "K" [withClock ClockV.mockClock]) "tok1"
        Store.empty).2.1,
       (tryLock (newMutex "K" [withClock ClockV.mockClock]) "tok1"
        Store.empty).2.2)).1.pttlCmd (getLockName "K") = (20000 : Int) ∧
    (runTicks (newMutex "K" [withClock ClockV.mockClock]) "tok1" 6
      ((tryLock (newMutex "K" [withClock ClockV.mockClock]) "tok1"
        Store.empty).2.1,
       (tryLock (newMutex "K" [withClock ClockV.mockClock]) "tok1"
        Store.empty).2.2)).2 = false ∧
    (runTicks (newMutex "K" [withClock ClockV.mockClock]) "tok1" 6
      ((tryLock (newMutex "K" [withClock ClockV.mockClock]) "tok1"
        Store.empty).2.1,
       (tryLock (newMutex "K" [withClock ClockV.mockClock]) "tok1"
        Store.empty).2.2)).1.entries = [] ∧
    (tryLock (newMutex "K" [withClock ClockV.mockClock]) "tok2"
      (runTicks (newMutex "K" [withClock ClockV.mockClock]) "tok1" 6
        ((tryLock (newMutex "K" [withClock ClockV.mockClock]) "tok1"
          Store.empty).2.1,
         (tryLock (newMutex "K" [withClock ClockV.mockClock]) "tok1"
          Store.empty).2.2)).1).1 = true := by
  decide

/-- C6: When the caller context is cancelled while Lock waits on a held
lock, Lock returns a non-nil error, but that error wraps the nil err
variable from the preceding doTryLock rather than ctx.Err(), so it does
not carry the cancellation of the context: an errors.Is test against
context.Canceled fails. -/
theorem lock_cancel_error_misses_ctx :
    (lock (newMutex "K" []) (fun _ => "waiter") [WaitEvent.ctxDone]
      (tryLock (newMutex "K" []) "owner" Store.empty).2.1).1 =
      LockOutcome.cancelled
        (GoError.wrapNil "cancelled while waiting for lock") ∧
    GoError.is (GoError.wrapNil "cancelled while waiting for lock")
      GoError.ctxCanceled = false := by
  decide

/-- C7 counterexample: on a held lock, a delivered message whose payload
is "other" (not "unlocked") exits the labelled select and does trigger a
re-attempt: the select step yields retry, and Lock performs three
acquire-script calls instead of the two it performs with no event at
all. -/
theorem nonUnlock_payload_retries :
    lockWaitStep none (WaitEvent.message "other") = WaitOutcome.retry ∧
    (lock (newMutex "K" []) (fun _ => "w") [WaitEvent.message "other"]
      (tryLock (newMutex "K" []) "owner" Store.empty).2.1).2.2 = 3 ∧
    (lock (newMutex "K" []) (fun _ => "w") ([] : List WaitEvent)
      (tryLock (newMutex "K" []) "owner" Store.empty).2.1).2.2 = 2 := by
  decide

/-- C10: NewMutex without a WithLogger option yields the zero-value
logger, because defaultOptions builds the WithLogger option without
applying it; the clock and the 30 s lease-duration defaults are
applied. -/
theorem newMutex_default_logger_unset (key : String) :
    (newMutex key []).logger = LoggerV.zeroLogger ∧
    LoggerV.zeroLogger ≠ LoggerV.stdrDefault ∧
    (newMutex key []).clock = ClockV.realClock ∧
    (newMutex key []).leaseDuration = 30 * 1000000000 := by
  exact ⟨rfl, by decide, rfl, rfl⟩

/-- Witness for C2 at key K, tokens a and b, on the empty store. -/
theorem tryLock_mutual_exclusion_witness :
    Store.empty.existsCmd (getLockName (newMutex "K" []).key) = 0 ∧
    0 < GoDuration.milliseconds (newMutex "K" []).leaseDuration ∧
    (tryLock (newMutex "K" []) "a" Store.empty).1 = true ∧
    (tryLock (newMutex "K" []) "b"
      (tryLock (newMutex "K" []) "a" Store.empty).2.1).1 = false :=
  ⟨by decide, by decide,
    (tryLock_mutual_exclusion (newMutex "K" []) Store.empty "a" "b"
      (by decide) (by decide)).1,
    (tryLock_mutual_exclusion (newMutex "K" []) Store.empty "a" "b"
      (by decide) (by decide)).2⟩

/-- Witness for C3 on the empty store and on a store holding the key. -/
theorem lockScript_semantics_witness :
    Store.empty.existsCmd "go_redisson_lock:K" = 0 ∧
    (lockScriptRun Store.empty "go_redisson_lock:K" 5 "t").1 = 0 ∧
    (lockScriptRun Store.empty "go_redisson_lock:K" 5 "t").2.pttlCmd
      "go_redisson_lock:K" = (5 : Int) ∧
    lockScriptRun (lockScriptRun Store.empty "go_redisson_lock:K" 5 "t").2
        "go_redisson_lock:K" 7 "u" =
      (((lockScriptRun Store.empty "go_redisson_lock:K" 5 "t").2).pttlCmd
          "go_redisson_lock:K",
        (lockScriptRun Store.empty "go_redisson_lock:K" 5 "t").2) :=
  ⟨by decide,
    ((lockScript_semantics Store.empty "go_redisson_lock:K" "t" 5
      (newMutex "K" []) "t").2.1 (by decide)).1,
    ((lockScript_semantics Store.empty "go_redisson_lock:K" "t" 5
      (newMutex "K" []) "t").2.1 (by decide)).2.2.1,
    (lockScript_semantics (lockScriptRun Store.empty "go_redisson_lock:K" 5 "t").2
      "go_redisson_lock:K" "u" 7 (newMutex "K" []) "u").2.2.1 (by decide)⟩

/-- Witness for C4 on the empty store and on a store holding the key. -/
theorem unlockScript_semantics_witness :
    Store.empty.existsCmd "go_redisson_lock:K" = 0 ∧
    unlockScriptRun Store.empty "go_redisson_lock:K"
      "go_redisson_lock_channel:K" "unlocked" = (0, Store.empty) ∧
    (unlockScriptRun (lockScriptRun Store.empty "go_redisson_lock:K" 5 "t").2
      "go_redisson_lock:K" "go_redisson_lock_channel:K" "unlocked").1 = 1 ∧
    (unlockScriptRun (lockScriptRun Store.empty "go_redisson_lock:K" 5 "t").2
      "go_redisson_lock:K" "go_redisson_lock_channel:K" "unlocked").2.published =
      (lockScriptRun Store.empty "go_redisson_lock:K" 5 "t").2.published ++
        [("go_redisson_lock_channel:K", "unlocked")] :=
  ⟨by decide,
    (unlockScript_semantics Store.empty "go_redisson_lock:K"
      "go_redisson_lock_channel:K" "unlocked").1 (by decide),
    ((unlockScript_semantics (lockScriptRun Store.empty "go_redisson_lock:K" 5 "t").2
      "go_redisson_lock:K" "go_redisson_lock_channel:K" "unlocked").2.1
        (by decide)).1,
    ((unlockScript_semantics (lockScriptRun Store.empty "go_redisson_lock:K" 5 "t").2
      "go_redisson_lock:K" "go_redisson_lock_channel:K" "unlocked").2.1
        (by decide)).2.2.2⟩

/-- Witness for C5: the holder token extends, a non-holder token leaves
the store unchanged. -/
theorem extendScript_semantics_witness :
    (lockScriptRun Store.empty "go_redisson_lock:K" 5 "t").2.getCmd
      "go_redisson_lock:K" = some "t" ∧
    (extendScriptRun (lockScriptRun Store.empty "go_redisson_lock:K" 5 "t").2
      "go_redisson_lock:K" 9 "t").1 = 1 ∧
    (extendScriptRun (lockScriptRun Store.empty "go_redisson_lock:K" 5 "t").2
      "go_redisson_lock:K" 9 "t").2.pttlCmd "go_redisson_lock:K" = (9 : Int) ∧
    extendScriptRun (lockScriptRun Store.empty "go_redisson_lock:K" 5 "t").2
      "go_redisson_lock:K" 9 "u" =
      (0, (lockScriptRun Store.empty "go_redisson_lock:K" 5 "t").2) :=
  ⟨by decide,
    ((extendScript_semantics (lockScriptRun Store.empty "go_redisson_lock:K" 5 "t").2
      "go_redisson_lock:K" "t" 9).1 (by decide)).1,
    ((extendScript_semantics (lockScriptRun Store.empty "go_redisson_lock:K" 5 "t").2
      "go_redisson_lock:K" "t" 9).1 (by decide)).2.2.2,
    (extendScript_semantics (lockScriptRun Store.empty "go_redisson_lock:K" 5 "t").2
      "go_redisson_lock:K" "u" 9).2 (by decide)⟩

/-- Witness for C7: with the lock held, a message event with payload
"other" makes the wait loop recurse into a fresh acquisition attempt. -/
theorem lockLoop_wakeup_witness :
    (WaitEvent.message "other" = WaitEvent.timerFired ∨
      WaitEvent.message "other" = WaitEvent.message "other") ∧
    ((tryLock (newMutex "K" []) "owner" Store.empty).2.1).heldAt
      (getLockName (newMutex "K" []).key) = true ∧
    lockLoop (newMutex "K" []) (fun _ => "w") [WaitEvent.message "other"]
        (tryLock (newMutex "K" []) "owner" Store.empty).2.1 1 1 =
      lockLoop (newMutex "K" []) (fun _ => "w") []
        (tryLock (newMutex "K" []) "owner" Store.empty).2.1 2 2 :=
  ⟨Or.inr rfl, by decide,
    (lockLoop_wakeup (newMutex "K" []) (fun _ => "w") "other"
      (WaitEvent.message "other") [] (tryLock (newMutex "K" []) "owner" Store.empty).2.1
      1 1 (Or.inr rfl) (by decide)).1⟩

/-- Witness for C8 with three Unlock calls on the empty store and one on
a held store. -/
theorem unlock_idempotent_free_witness :
    Store.empty.existsCmd (getLockName (newMutex "K" []).key) = 0 ∧
    (unlock (newMutex "K" []) Store.empty).1 = none ∧
    (unlock (newMutex "K" []) Store.empty).2 = Store.empty ∧
    unlockIter (newMutex "K" []) 3 Store.empty = Store.empty ∧
    (unlock (newMutex "K" [])
      (tryLock (newMutex "K" []) "owner" Store.empty).2.1).1 = none :=
  ⟨by decide,
    (unlock_idempotent_free (newMutex "K" []) Store.empty
      (tryLock (newMutex "K" []) "owner" Store.empty).2.1 3 (by decide)).1,
    (unlock_idempotent_free (newMutex "K" []) Store.empty
      (tryLock (newMutex "K" []) "owner" Store.empty).2.1 3 (by decide)).2.1,
    (unlock_idempotent_free (newMutex "K" []) Store.empty
      (tryLock (newMutex "K" []) "owner" Store.empty).2.1 3 (by decide)).2.2.1,
    (unlock_idempotent_free (newMutex "K" []) Store.empty
      (tryLock (newMutex "K" []) "owner" Store.empty).2.1 3 (by decide)).2.2.2⟩

/-- Witness for C9 at key K and unrelated key x. -/
theorem mutex_key_naming_witness :
    ("x" : String) ≠ getLockName (newMutex "K" []).key ∧
    getLockName (newMutex "K" []).key = "go_redisson_lock:" ++ "K" ∧
    ((unlock (newMutex "K" []) Store.empty).2).getCmd "x" =
      Store.empty.getCmd "x" ∧
    ((lock (newMutex "K" []) (fun _ => "t") [WaitEvent.timerFired]
      Store.empty).2.1).getCmd "x" = Store.empty.getCmd "x" :=
  ⟨by decide,
    (mutex_key_naming (newMutex "K" []) "t" "x" Store.empty (fun _ => "t")
      [WaitEvent.timerFired] (by decide)).1,
    (mutex_key_naming (newMutex "K" []) "t" "x" Store.empty (fun _ => "t")
      [WaitEvent.timerFired] (by decide)).2.2.2.2.2.1,
    (mutex_key_naming (newMutex "K" []) "t" "x" Store.empty (fun _ => "t")
      [WaitEvent.timerFired] (by decide)).2.2.2.2.2.2.1⟩
